import Mathlib

/-!
Verification of the client-side data-availability layer of the portfolio
repository: the projects service (`projects-service.ts`), the blog service
(`blog.service.ts`) and the work-view filter (`work-component.ts`), embedded
shallowly.  Local storage is modelled as an explicit cache state, the HTTP
outcome as an `Except Unit` parameter, and JavaScript exceptions (storage
quota, `JSON.parse` failure) as `Except JsError` results.
-/

namespace Portfolio

/-- A JavaScript date value as it flows through this code: either the
JSON-serialized string form delivered by the HTTP layer and by
`JSON.stringify`, or a `Date` object produced by `new Date(...)`.  Both carry
the instant they denote; the two constructors record that a string and a
`Date` object are distinct runtime values even when they denote the same
instant. -/
inductive JsDateVal
  | str (s : String)
  | dateObj (s : String)
deriving DecidableEq, Repr

/-- The `new Date(x)` conversion: a serialized string becomes a `Date` object
for the same instant; applied to a `Date` object it yields an equal `Date`
object. -/
def jsNewDate : JsDateVal → JsDateVal
  | .str s => .dateObj s
  | .dateObj s => .dateObj s

/-- The effect of `JSON.stringify` on a date-valued field: a `Date` object is
serialized to the string denoting its instant; a string stays a string. -/
def serializeDate : JsDateVal → JsDateVal
  | .str s => .str s
  | .dateObj s => .str s

/-- The `Project` interface of `projects-service.ts` (lines 6-24).  Optional
TypeScript fields are `Option`; `status` is kept as the raw string it is
compared as. -/
structure Project where
  _id : Option String := none
  title : String := ""
  description : String := ""
  shortdescription : Option String := none
  technologies : List String := []
  githuburl : Option String := none
  liveurl : Option String := none
  imageurl : Option String := none
  featured : Bool := false
  status : String := "completed"
  startdate : JsDateVal := .str ""
  enddate : Option JsDateVal := none
  category : String := ""
  createdat : Option JsDateVal := none
  updatedat : Option JsDateVal := none
  blogpost : Bool := false
  blogid : Option String := none
deriving DecidableEq, Repr

/-- The `BlogPost` interface of `blog.service.ts` (lines 7-18). -/
structure BlogPost where
  id : String := ""
  slug : String := ""
  title : String := ""
  excerpt : String := ""
  content : String := ""
  author : String := ""
  publisheddate : JsDateVal := .str ""
  tags : List String := []
  readtime : Nat := 0
  imageurl : Option String := none
deriving DecidableEq, Repr

/-- A JavaScript exception relevant to the cache store: a storage quota /
permission error thrown by `localStorage.setItem`, or a `JSON.parse` failure
on a corrupt stored value. -/
inductive JsError
  | quotaExceeded
  | parseError
deriving DecidableEq, Repr

/-- The value stored under a service's payload cache key: either a string that
fails to parse, or the JSON serialization of a record list. -/
inductive StoredPayload (α : Type)
  | corrupt
  | records (ps : List α)
deriving DecidableEq, Repr

/-- The slice of `localStorage` owned by one service: the payload key, the
timestamp key (parsed epoch milliseconds), and whether the storage currently
rejects writes (quota exceeded / permission denied). -/
structure CacheState (α : Type) where
  payload : Option (StoredPayload α) := none
  timestamp : Option Nat := none
  quotaExceeded : Bool := false
deriving DecidableEq, Repr

/-- The `localStorage.setItem(CACHE_KEY, JSON.stringify(payload))` primitive:
throws when the quota is exceeded, otherwise overwrites the payload key. -/
def CacheState.setPayload {α : Type} (s : CacheState α) (ps : List α) :
    Except JsError (CacheState α) :=
  if s.quotaExceeded then .error .quotaExceeded
  else .ok { s with payload := some (.records ps) }

/-- The `localStorage.setItem(CACHE_TIMESTAMP_KEY, Date.now().toString())`
primitive. -/
def CacheState.setTimestamp {α : Type} (s : CacheState α) (now : Nat) :
    Except JsError (CacheState α) :=
  if s.quotaExceeded then .error .quotaExceeded
  else .ok { s with timestamp := some now }

/-- The two `localStorage.removeItem` calls of a `clearCache`: removes the
payload and timestamp keys (`removeItem` does not throw). -/
def CacheState.removeBoth {α : Type} (s : CacheState α) : CacheState α :=
  { s with payload := none, timestamp := none }

/-- The `JSON.parse` of a stored payload: throws on a corrupt value. -/
def parseStored {α : Type} : StoredPayload α → Except JsError (List α)
  | .corrupt => .error .parseError
  | .records ps => .ok ps

/-- The build-time fallback dataset of `fallback-blog-data.ts`.  The
`publisheddate` fields are built with `new Date(...)`, hence `Date` objects. -/
def fallbackBlogPosts : List BlogPost :=
  [ { id := "1"
    , slug := "getting-started-with-angular"
    , title := "Getting Started with Angular"
    , excerpt := "A beginner's guide to setting up and creating your first Angular application."
    , content := "This is a placeholder content for when the server is unavailable. The actual blog post contains a comprehensive guide about getting started with Angular development."
    , author := "Jake"
    , publisheddate := .dateObj "2025-09-20"
    , tags := ["Angular", "TypeScript", "Web Development"]
    , readtime := 5
    , imageurl := some "/assets/images/blog/angular-intro.jpg" }
  , { id := "2"
    , slug := "typescript-best-practices"
    , title := "TypeScript Best Practices"
    , excerpt := "Essential TypeScript practices and patterns for better code quality."
    , content := "This is a placeholder content for when the server is unavailable. The actual blog post discusses TypeScript best practices and patterns."
    , author := "Jake"
    , publisheddate := .dateObj "2025-09-15"
    , tags := ["TypeScript", "Programming", "Best Practices"]
    , readtime := 7
    , imageurl := some "/assets/images/blog/typescript.jpg" }
  , { id := "3"
    , slug := "web-development-tools"
    , title := "Essential Web Development Tools"
    , excerpt := "A curated list of must-have tools for modern web development."
    , content := "This is a placeholder content for when the server is unavailable. The actual blog post covers essential tools for web development."
    , author := "Jake"
    , publisheddate := .dateObj "2025-09-10"
    , tags := ["Web Development", "Tools", "Productivity"]
    , readtime := 6
    , imageurl := some "/assets/images/blog/webdev-tools.jpg" } ]

namespace BlogService

/-- `CACHE_DURATION` of `blog.service.ts` (line 27): one hour in
milliseconds. -/
def CACHE_DURATION : Nat := 60 * 60 * 1000

/-- The `localStorage` slice under `blog_posts_cache` /
`blog_posts_cache_timestamp`. -/
abbrev BlogCache := CacheState BlogPost

/-- The effect of `JSON.stringify` on one blog post (its date field is the
only non-plain field). -/
def serializePost (p : BlogPost) : BlogPost :=
  { p with publisheddate := serializeDate p.publisheddate }

/-- The per-record mapping of `getCachedPosts` (blog.service.ts lines
187-190): spread the parsed record and replace `publisheddate` with
`new Date(post.publisheddate)`.  Every other field passes through
unchanged. -/
def reviveCachedPost (p : BlogPost) : BlogPost :=
  { p with publisheddate := jsNewDate p.publisheddate }

/-- `BlogService.clearCache` (lines 146-149): removes both keys. -/
def clearCache (s : BlogCache) : BlogCache := s.removeBoth

/-- `BlogService.getCachedPosts` (lines 173-191).  Returns `null` when either
key is absent; clears the cache and returns `null` when the entry is older
than `CACHE_DURATION`; otherwise parses the stored value (the `JSON.parse` is
NOT wrapped in try/catch, so a parse failure propagates as an exception) and
converts each stored date string back to a `Date` object. -/
def getCachedPosts (s : BlogCache) (now : Nat) :
    Except JsError (BlogCache × Option (List BlogPost)) :=
  match s.payload, s.timestamp with
  | some stored, some ts =>
    if now - ts > CACHE_DURATION then
      .ok (clearCache s, none)
    else
      match parseStored stored with
      | .error e => .error e
      | .ok posts => .ok (s, some (posts.map reviveCachedPost))
  | _, _ => .ok (s, none)

/-- `BlogService.cachePosts` (lines 165-168): two `setItem` calls, not
wrapped in try/catch, so a quota error propagates as an exception. -/
def cachePosts (s : BlogCache) (posts : List BlogPost) (now : Nat) :
    Except JsError BlogCache := do
  let s1 ← s.setPayload (posts.map serializePost)
  s1.setTimestamp now

/-- The outcome of one `getPosts` pipeline: the cache state afterwards, the
record list emitted to the subscriber, and whether the HTTP request was
issued at all (`getPosts` returns `of(cachedPosts)` before ever touching
`this.http` when the cache check succeeds). -/
structure BlogLoadResult where
  state : BlogCache
  emitted : List BlogPost
  remoteCalled : Bool
deriving DecidableEq, Repr

/-- `BlogService.getPosts` (lines 42-66).  The cache is consulted first and a
non-null result is returned immediately without a network call.  Otherwise
the HTTP outcome `remote` is consumed: on success the `tap` caches the posts
(a quota error thrown there is caught by the downstream `catchError`) and the
posts are emitted; on failure the `catchError` handler emits
`getCachedPosts() || fallbackBlogPosts`.  A parse exception thrown by
`getCachedPosts` (corrupt fresh entry) propagates out of the whole
pipeline. -/
def getPosts (s : BlogCache) (now : Nat) (remote : Except Unit (List BlogPost)) :
    Except JsError BlogLoadResult := do
  let (s1, cached?) ← getCachedPosts s now
  match cached? with
  | some cachedPosts =>
    .ok { state := s1, emitted := cachedPosts, remoteCalled := false }
  | none =>
    match remote with
    | .ok posts =>
      match cachePosts s1 posts now with
      | .ok s2 =>
        .ok { state := s2, emitted := posts, remoteCalled := true }
      | .error _ => do
        let (s2, fb?) ← getCachedPosts s1 now
        .ok { state := s2, emitted := fb?.getD fallbackBlogPosts, remoteCalled := true }
    | .error _ => do
      let (s2, fb?) ← getCachedPosts s1 now
      .ok { state := s2, emitted := fb?.getD fallbackBlogPosts, remoteCalled := true }

/-- `BlogService.getPostBySlug` (lines 71-75): map over `getPosts`, taking
the first post with the given slug, `null` when there is none. -/
def getPostBySlug (s : BlogCache) (now : Nat) (remote : Except Unit (List BlogPost))
    (slug : String) : Except JsError (BlogCache × Option BlogPost) := do
  let r ← getPosts s now remote
  .ok (r.state, r.emitted.find? (fun p => p.slug == slug))

/-- `BlogService.forceRefresh` (lines 129-141): clear the cache, then issue
the HTTP request unconditionally; on success cache and emit the posts (a
quota error in the `tap` falls into `catchError`), on failure emit
`fallbackBlogPosts` directly — the handler never reads the cache. -/
def forceRefresh (s : BlogCache) (now : Nat) (remote : Except Unit (List BlogPost)) :
    BlogLoadResult :=
  let s1 := clearCache s
  match remote with
  | .ok posts =>
    match cachePosts s1 posts now with
    | .ok s2 => { state := s2, emitted := posts, remoteCalled := true }
    | .error _ => { state := s1, emitted := fallbackBlogPosts, remoteCalled := true }
  | .error _ => { state := s1, emitted := fallbackBlogPosts, remoteCalled := true }

end BlogService

namespace ProjectsService

/-- `CACHE_DURATION` of `projects-service.ts` (line 48): 24 hours in
milliseconds. -/
def CACHE_DURATION : Nat := 24 * 60 * 60 * 1000

/-- The `localStorage` slice under `portfolio_projects_cache` /
`portfolio_projects_cache_timestamp`. -/
abbrev ProjectsCache := CacheState Project

/-- The hardcoded `fallbackProjects` of `projects-service.ts` (lines
62-110). -/
def fallbackProjects : List Project :=
  [ { _id := some "fallback-1"
    , title := "Portfolio Website"
    , description := "This personal portfolio is a showcase of several skills at once, all of which I have honed independently. I used Angular for the frontend, an ExpressJS Node server deployed on AWS for the backend, and a POSTGRESQL database for its ease of implementation (and low low cost). I have all my project details saved in my Database, and they are pulled and displayed dynamically by my Angular frontend. I built the structure myself, but to save time I leveraged AI tools to streamline styling and to help implement mass changes (changing multiple stylings or re-implementing a feature), but the bulk of the portfolio is hand-built with love ♥."
    , shortdescription := some "Angular-based front end with Node & POSTGRESQL back end."
    , technologies := ["Angular", "TypeScript", "Angular Material", "Tailwind CSS"]
    , githuburl := some "https://github.com/yourusername/portfolio"
    , liveurl := some "https://yourportfolio.com"
    , imageurl := some "https://i.imgur.com/i7vMcSI.png"
    , featured := true
    , status := "completed"
    , startdate := .dateObj "2025-08-25"
    , enddate := some (.dateObj "2025-09-20")
    , category := "Web Development"
    , blogpost := true
    , blogid := some "portfolio-development-journey" }
  , { _id := some "fallback-2"
    , title := "Inspirational Homepage"
    , description := "An interactive inpsirational homepage that features a changeable background, a task manager, and current weather for you location."
    , shortdescription := some "Full-stack task management with real-time features"
    , technologies := ["React", "Redux", "Netlify", "Open-Source APIs"]
    , githuburl := some "https://github.com/jpugh020/inspirational-homepage"
    , liveurl := some "https://cool-centaur-c064ba.netlify.app/"
    , imageurl := some ""
    , featured := true
    , status := "completed"
    , startdate := .dateObj "2025-06-01"
    , enddate := some (.dateObj "2025-06-12")
    , category := "Web Development"
    , blogpost := false }
  , { _id := some "fallback-3"
    , title := "Employee Management Database App"
    , description := "An Employee Management Database made using EJS, Express, Node, and MongoDB. I constructed this myself from the ground up, mainly as a means to practice about server development, security measures, authentication and authorization, and server-side rendering."
    , shortdescription := some "Simple Employee Management App using Express, EJS, MongoDB and Node."
    , technologies := ["Node", "ExpressJS", "EJS", "MongoDB"]
    , githuburl := some "https://github.com/jpugh020/crud_employee_management_app"
    , featured := false
    , status := "completed"
    , startdate := .dateObj "2025-06-14"
    , enddate := some (.dateObj "2025-06-22")
    , category := "Employee Management"
    , blogpost := false } ]

/-- The effect of `JSON.stringify` on one project (all four date fields
serialized). -/
def serializeProject (p : Project) : Project :=
  { p with startdate := serializeDate p.startdate
         , enddate := p.enddate.map serializeDate
         , createdat := p.createdat.map serializeDate
         , updatedat := p.updatedat.map serializeDate }

/-- `ProjectsService.clearCache` (lines 358-366): removes both keys inside a
try/catch (`removeItem` does not throw). -/
def clearCache (c : ProjectsCache) : ProjectsCache := c.removeBoth

/-- `ProjectsService.cacheProjects` (lines 260-268): two `setItem` calls
inside a try/catch; a quota error is caught and logged, leaving the cache
unchanged. -/
def cacheProjects (c : ProjectsCache) (ps : List Project) (now : Nat) :
    ProjectsCache :=
  if c.quotaExceeded then c
  else { c with payload := some (.records (ps.map serializeProject))
              , timestamp := some now }

/-- `ProjectsService.getCachedProjects` (lines 273-292), fully wrapped in
try/catch: returns `null` when a key is absent; when the entry is younger
than `CACHE_DURATION` it parses and returns it (a `JSON.parse` failure is
caught and becomes `null`); when the entry is stale it clears the cache and
returns `null`.  Unlike the blog service, no date conversion is applied to
the parsed records. -/
def getCachedProjects (c : ProjectsCache) (now : Nat) :
    ProjectsCache × Option (List Project) :=
  match c.payload, c.timestamp with
  | some stored, some ts =>
    if now - ts < CACHE_DURATION then
      match stored with
      | .records ps => (c, some ps)
      | .corrupt => (c, none)
    else (clearCache c, none)
  | _, _ => (c, none)

/-- The service state the orchestration paths touch: the cache slice and the
current value of `projectsSubject` (the `BehaviorSubject` broadcast to
`projects$` subscribers). -/
structure ServiceState where
  cache : ProjectsCache
  subjectProjects : List Project := []
deriving DecidableEq, Repr

/-- `ProjectsService.useFallbackData` (lines 308-320): read the cache; a
non-empty cached list is pushed to the subject, otherwise the hardcoded
`fallbackProjects` are pushed. -/
def useFallbackData (s : ServiceState) (now : Nat) : ServiceState :=
  let (c, cached?) := getCachedProjects s.cache now
  match cached? with
  | some ps =>
    if ps.length > 0 then { cache := c, subjectProjects := ps }
    else { cache := c, subjectProjects := fallbackProjects }
  | none => { cache := c, subjectProjects := fallbackProjects }

/-- The outcome of one `getAllProjects` pipeline: service state afterwards,
the record list emitted to the direct subscriber of the returned observable,
and whether the HTTP request was issued (`getAllProjects` builds its pipeline
on `this.http.get` unconditionally). -/
structure ProjectsLoadResult where
  state : ServiceState
  emitted : List Project
  remoteCalled : Bool
deriving DecidableEq, Repr

/-- `ProjectsService.getAllProjects` (lines 120-150).  The HTTP request is
always issued.  On success the `tap` caches non-empty payloads and pushes
them to the subject; an empty payload makes it call `useFallbackData`
instead — but the `tap` does not change the emitted value, so the empty list
still flows to the subscriber.  On failure the `catchError` handler calls
`useFallbackData` and emits `getCachedProjects() || fallbackProjects`. -/
def getAllProjects (s : ServiceState) (now : Nat)
    (remote : Except Unit (List Project)) : ProjectsLoadResult :=
  match remote with
  | .ok projects =>
    if projects.length > 0 then
      let c := cacheProjects s.cache projects now
      { state := { cache := c, subjectProjects := projects }
      , emitted := projects, remoteCalled := true }
    else
      let s2 := useFallbackData s now
      { state := s2, emitted := projects, remoteCalled := true }
  | .error _ =>
    let s2 := useFallbackData s now
    let (c2, cached?) := getCachedProjects s2.cache now
    { state := { s2 with cache := c2 }
    , emitted := cached?.getD fallbackProjects, remoteCalled := true }

/-- `ProjectsService.forceRefresh` (lines 371-374): clear the cache, then run
`getAllProjects`. -/
def forceRefresh (s : ServiceState) (now : Nat)
    (remote : Except Unit (List Project)) : ProjectsLoadResult :=
  getAllProjects { s with cache := clearCache s.cache } now remote

end ProjectsService

/-- The JavaScript `haystack.includes(needle)` substring test. -/
def jsIncludes (s sub : String) : Bool :=
  decide (sub.toList <:+: s.toList)

/-- The JavaScript `toLowerCase()` call, character by character (the inputs
at play are ASCII, where the two agree). -/
def jsToLower (s : String) : String :=
  ⟨s.data.map Char.toLower⟩

namespace WorkComponent

/-- The filter controls of the work view (`work-component.ts` lines 63-66);
`search`, `category` and `status` model the `FormControl` string values (the
empty string also standing for `null`, which the code treats identically via
falsiness), `featured` the checkbox value. -/
structure FilterControls where
  search : String := ""
  category : String := "all"
  status : String := "all"
  featured : Bool := false
deriving DecidableEq, Repr

/-- The search predicate inside `applyFilters` (lines 222-226): the
lowercased term is looked for in the lowercased title, description, or any
technology token. -/
def matchesSearch (searchTerm : String) (p : Project) : Bool :=
  jsIncludes (jsToLower p.title) searchTerm ||
  jsIncludes (jsToLower p.description) searchTerm ||
  p.technologies.any (fun tech => jsIncludes (jsToLower tech) searchTerm)

/-- `WorkComponent.applyFilters` (lines 216-247): four successive filters
over the loaded projects — text search when the term is non-empty, category
when set and not `all`, status when set and not `all`, and `featured` when
checked. -/
def applyFilters (projects : List Project) (f : FilterControls) : List Project :=
  let filtered := projects
  let searchTerm := jsToLower f.search
  let filtered :=
    if searchTerm != "" then filtered.filter (matchesSearch searchTerm)
    else filtered
  let filtered :=
    if f.category != "" && f.category != "all" then
      filtered.filter (fun p => p.category == f.category)
    else filtered
  let filtered :=
    if f.status != "" && f.status != "all" then
      filtered.filter (fun p => p.status == f.status)
    else filtered
  let filtered :=
    if f.featured then filtered.filter (fun p => p.featured)
    else filtered
  filtered

end WorkComponent

/-! Sample states and records used by the concrete instantiations below. -/

/-- A sample blog post with a server-delivered (string) date, as the HTTP
layer produces it. -/
def demoPost : BlogPost :=
  { id := "p1", slug := "hello", title := "Hello", excerpt := "e", content := "c"
  , author := "A", publisheddate := .str "2025-01-01", tags := ["t"], readtime := 3 }

/-- The blog cache with both keys absent. -/
def emptyBlogCache : BlogService.BlogCache := {}

/-- A blog cache holding `demoPost`, written at epoch millisecond 1000 (fresh
when read at 1000). -/
def freshBlogCache : BlogService.BlogCache :=
  { payload := some (.records [demoPost]), timestamp := some 1000 }

/-- A blog cache holding `demoPost`, written at epoch 0 (stale when read two
hours later). -/
def staleBlogCache : BlogService.BlogCache :=
  { payload := some (.records [demoPost]), timestamp := some 0 }

/-- A blog cache whose stored payload does not parse, with a fresh
timestamp. -/
def corruptFreshBlogCache : BlogService.BlogCache :=
  { payload := some .corrupt, timestamp := some 1000 }

/-- The blog cache as `getPosts` leaves it after caching `[demoPost]` at
epoch 0. -/
def demoCachedState : BlogService.BlogCache :=
  { payload := some (.records [BlogService.serializePost demoPost]), timestamp := some 0 }

/-! Helper lemmas about the two cache reads, shared by several claims. -/

/-- Reviving an already revived record changes nothing (`new Date` applied to
a `Date` object yields the same instant). -/
theorem reviveCachedPost_idem (p : BlogPost) :
    BlogService.reviveCachedPost (BlogService.reviveCachedPost p) =
      BlogService.reviveCachedPost p := by
  cases p with
  | mk id slug title excerpt content author publisheddate tags readtime imageurl =>
    cases publisheddate <;> rfl

/-- Reviving a serialized record gives the same result as reviving the
original: the JSON round trip preserves the instant the date denotes. -/
theorem reviveCachedPost_serialize (p : BlogPost) :
    BlogService.reviveCachedPost (BlogService.serializePost p) =
      BlogService.reviveCachedPost p := by
  cases p with
  | mk id slug title excerpt content author publisheddate tags readtime imageurl =>
    cases publisheddate <;> rfl

/-- The fallback blog posts carry `Date`-object dates already, so the cache
revival mapping fixes them. -/
theorem fallbackBlogPosts_revive :
    fallbackBlogPosts.map BlogService.reviveCachedPost = fallbackBlogPosts := by
  rfl

/-- The blog cache read is stable: reading again, at the same instant, from
the state a read left behind returns the same outcome (a read only mutates
the store by deleting a stale entry, and a deleted entry stays absent). -/
theorem blog_getCachedPosts_stable (b b1 : BlogService.BlogCache) (now : Nat)
    (r : Option (List BlogPost))
    (h : BlogService.getCachedPosts b now = .ok (b1, r)) :
    BlogService.getCachedPosts b1 now = .ok (b1, r) := by
  obtain ⟨bp, bt, bq⟩ := b
  cases bp with
  | none =>
    simp [BlogService.getCachedPosts] at h
    obtain ⟨rfl, rfl⟩ := h
    rfl
  | some stored =>
    cases bt with
    | none =>
      simp [BlogService.getCachedPosts] at h
      obtain ⟨rfl, rfl⟩ := h
      rfl
    | some ts =>
      by_cases hfresh : now - ts > BlogService.CACHE_DURATION
      · simp [BlogService.getCachedPosts, hfresh, BlogService.clearCache,
          CacheState.removeBoth] at h
        obtain ⟨rfl, rfl⟩ := h
        rfl
      · cases stored with
        | corrupt => simp [BlogService.getCachedPosts, hfresh, parseStored] at h
        | records ps =>
          simp [BlogService.getCachedPosts, hfresh, parseStored] at h
          obtain ⟨rfl, rfl⟩ := h
          simp [BlogService.getCachedPosts, hfresh, parseStored]

/-- A blog cache read preserves the quota flag of the store. -/
theorem blog_getCachedPosts_quota (b b1 : BlogService.BlogCache) (now : Nat)
    (r : Option (List BlogPost))
    (h : BlogService.getCachedPosts b now = .ok (b1, r)) :
    b1.quotaExceeded = b.quotaExceeded := by
  obtain ⟨bp, bt, bq⟩ := b
  cases bp with
  | none =>
    simp [BlogService.getCachedPosts] at h
    obtain ⟨rfl, rfl⟩ := h
    rfl
  | some stored =>
    cases bt with
    | none =>
      simp [BlogService.getCachedPosts] at h
      obtain ⟨rfl, rfl⟩ := h
      rfl
    | some ts =>
      by_cases hfresh : now - ts > BlogService.CACHE_DURATION
      · simp [BlogService.getCachedPosts, hfresh, BlogService.clearCache,
          CacheState.removeBoth] at h
        obtain ⟨rfl, rfl⟩ := h
        rfl
      · cases stored with
        | corrupt => simp [BlogService.getCachedPosts, hfresh, parseStored] at h
        | records ps =>
          simp [BlogService.getCachedPosts, hfresh, parseStored] at h
          obtain ⟨rfl, rfl⟩ := h
          rfl

/-- A successful blog cache hit always delivers revived records, so the
delivered list is a fixed point of the revival mapping. -/
theorem blog_getCachedPosts_revived (b b1 : BlogService.BlogCache) (now : Nat)
    (cps : List BlogPost)
    (h : BlogService.getCachedPosts b now = .ok (b1, some cps)) :
    cps.map BlogService.reviveCachedPost = cps := by
  obtain ⟨bp, bt, bq⟩ := b
  cases bp with
  | none => simp [BlogService.getCachedPosts] at h
  | some stored =>
    cases bt with
    | none => simp [BlogService.getCachedPosts] at h
    | some ts =>
      by_cases hfresh : now - ts > BlogService.CACHE_DURATION
      · simp [BlogService.getCachedPosts, hfresh] at h
      · cases stored with
        | corrupt => simp [BlogService.getCachedPosts, hfresh, parseStored] at h
        | records ps =>
          simp [BlogService.getCachedPosts, hfresh, parseStored] at h
          obtain ⟨-, rfl⟩ := h
          simp [List.map_map, Function.comp, reviveCachedPost_idem]

/-- The projects cache read is stable in the same sense as the blog one. -/
theorem projects_getCachedProjects_stable (c : ProjectsService.ProjectsCache) (now : Nat) :
    ProjectsService.getCachedProjects (ProjectsService.getCachedProjects c now).1 now =
      ProjectsService.getCachedProjects c now := by
  obtain ⟨cp, ct, cq⟩ := c
  cases cp with
  | none => rfl
  | some stored =>
    cases ct with
    | none => rfl
    | some ts =>
      by_cases hfresh : now - ts < ProjectsService.CACHE_DURATION
      · cases stored with
        | corrupt => simp [ProjectsService.getCachedProjects, hfresh]
        | records ps => simp [ProjectsService.getCachedProjects, hfresh]
      · simp [ProjectsService.getCachedProjects, hfresh, ProjectsService.clearCache,
          CacheState.removeBoth]

/-- `useFallbackData` carries over exactly the cache state its read
produced. -/
theorem useFallbackData_cache (s : ProjectsService.ServiceState) (now : Nat) :
    (ProjectsService.useFallbackData s now).cache =
      (ProjectsService.getCachedProjects s.cache now).1 := by
  unfold ProjectsService.useFallbackData
  cases h : ProjectsService.getCachedProjects s.cache now with
  | mk c cached? =>
    cases cached? with
    | none => simp
    | some ps =>
      by_cases hl : ps.length > 0 <;> simp [hl]

/-! Claim C1: the fallback cache read. -/

/-- Claim C1 as stated is false on the code: a stored payload that is present
and parseable but older than the TTL is NOT returned by the fallback-path
cache read.  At two hours of age the blog read clears the entry and reports
none, the fallback load then emits the static fallback set instead of the
stale payload, and the projects read at 48 hours of age likewise reports
none. -/
theorem claim1_counterexample :
    BlogService.getCachedPosts staleBlogCache 7200000 =
      .ok (BlogService.clearCache staleBlogCache, none) ∧
    (BlogService.getPosts staleBlogCache 7200000 (.error ())).map
        (fun r => r.emitted) = .ok fallbackBlogPosts ∧
    (ProjectsService.getCachedProjects
        { payload := some (.records ProjectsService.fallbackProjects)
        , timestamp := some 0 } 172800000).2 = none := by
  exact ⟨rfl, rfl, rfl⟩

/-- Claim C1 amended: the fallback-path cache store read does NOT ignore
freshness.  In both services it returns the stored payload only when present,
parseable AND younger than the TTL; a stale entry is cleared and reported as
absent, so the fallback falls through past it. -/
theorem claim1_amended (b : BlogService.BlogCache) (c : ProjectsService.ProjectsCache)
    (now tb tp : Nat) (ps : List BlogPost) (qs : List Project) :
    (b.payload = some (.records ps) → b.timestamp = some tb →
      now - tb > BlogService.CACHE_DURATION →
      BlogService.getCachedPosts b now = .ok (BlogService.clearCache b, none)) ∧
    (b.payload = some (.records ps) → b.timestamp = some tb →
      ¬ now - tb > BlogService.CACHE_DURATION →
      BlogService.getCachedPosts b now =
        .ok (b, some (ps.map BlogService.reviveCachedPost))) ∧
    (c.payload = some (.records qs) → c.timestamp = some tp →
      ¬ now - tp < ProjectsService.CACHE_DURATION →
      ProjectsService.getCachedProjects c now = (ProjectsService.clearCache c, none)) ∧
    (c.payload = some (.records qs) → c.timestamp = some tp →
      now - tp < ProjectsService.CACHE_DURATION →
      ProjectsService.getCachedProjects c now = (c, some qs)) := by
  refine ⟨fun h1 h2 h3 => ?_, fun h1 h2 h3 => ?_, fun h1 h2 h3 => ?_, fun h1 h2 h3 => ?_⟩ <;>
    simp [BlogService.getCachedPosts, ProjectsService.getCachedProjects,
      h1, h2, h3, parseStored]

/-- Concrete instantiation of the amended C1 statement: a two-hour-old entry
is cleared, a fresh one is returned revived. -/
theorem claim1_witness :
    BlogService.getCachedPosts staleBlogCache 7200000 =
      .ok (BlogService.clearCache staleBlogCache, none) ∧
    BlogService.getCachedPosts freshBlogCache 1000 =
      .ok (freshBlogCache, some ([demoPost].map BlogService.reviveCachedPost)) := by
  constructor
  · exact (claim1_amended staleBlogCache {} 7200000 0 0 [demoPost] []).1
      rfl rfl (by decide)
  · exact (claim1_amended freshBlogCache {} 1000 1000 0 [demoPost] []).2.1
      rfl rfl (by decide)

/-! Claim C2: is the remote request always attempted first? -/

/-- Claim C2 as stated is false on the code: with a fresh cache entry,
`BlogService.getPosts` returns the cached payload without issuing any remote
request (the HTTP outcome here is a failure, yet the cached posts are served
and `remoteCalled` is false). -/
theorem claim2_counterexample :
    BlogService.getPosts freshBlogCache 1000 (.error ()) =
      .ok { state := freshBlogCache
          , emitted := [BlogService.reviveCachedPost demoPost]
          , remoteCalled := false } := by
  rfl

/-- Claim C2 amended: `ProjectsService.getAllProjects` always issues the
remote request, but `BlogService.getPosts` checks the persisted cache first:
a usable (fresh, parseable) entry is returned as a first-choice read with no
remote request, and the remote request is issued only when that first cache
read reports no entry. -/
theorem claim2_amended (s : ProjectsService.ServiceState) (b b1 : BlogService.BlogCache)
    (now : Nat) (remote : Except Unit (List Project))
    (bremote : Except Unit (List BlogPost)) (ps : List BlogPost) :
    ((ProjectsService.getAllProjects s now remote).remoteCalled = true) ∧
    (BlogService.getCachedPosts b now = .ok (b1, some ps) →
      BlogService.getPosts b now bremote =
        .ok { state := b1, emitted := ps, remoteCalled := false }) ∧
    (BlogService.getCachedPosts b now = .ok (b1, none) →
      (BlogService.getPosts b now bremote).map (fun r => r.remoteCalled) = .ok true) := by
  refine ⟨?_, fun h => ?_, fun h => ?_⟩
  · cases remote with
    | ok projects =>
      by_cases hl : projects.length > 0 <;> simp [ProjectsService.getAllProjects, hl]
    | error e => simp [ProjectsService.getAllProjects]
  · simp [BlogService.getPosts, h, Bind.bind, Except.bind]
  · cases bremote with
    | ok posts =>
      cases hc : BlogService.cachePosts b1 posts now with
      | ok s2 => simp [BlogService.getPosts, h, hc, Bind.bind, Except.bind, Except.map]
      | error e =>
        have h2 := blog_getCachedPosts_stable b b1 now none h
        simp [BlogService.getPosts, h, hc, h2, Bind.bind, Except.bind, Except.map]
    | error e =>
      have h2 := blog_getCachedPosts_stable b b1 now none h
      simp [BlogService.getPosts, h, h2, Bind.bind, Except.bind, Except.map]

/-- Concrete instantiation of the amended C2 statement: an empty cache forces
the remote call; a fresh cache suppresses it. -/
theorem claim2_witness :
    (BlogService.getPosts emptyBlogCache 0 (.ok [demoPost])).map
        (fun r => r.remoteCalled) = .ok true ∧
    BlogService.getPosts freshBlogCache 1000 (.ok []) =
      .ok { state := freshBlogCache
          , emitted := [BlogService.reviveCachedPost demoPost]
          , remoteCalled := false } := by
  constructor
  · exact (claim2_amended { cache := {} } emptyBlogCache emptyBlogCache 0
      (.error ()) (.ok [demoPost]) []).2.2 rfl
  · exact (claim2_amended { cache := {} } freshBlogCache freshBlogCache 1000
      (.error ()) (.ok []) [BlogService.reviveCachedPost demoPost]).2.1 rfl

/-! Claim C3: empty-but-successful responses. -/

/-- Claim C3 as stated is false on the code.  Blog side: `getPosts` performs
no empty-payload check at all — a successful empty response is both written
to the cache store and emitted to the subscriber.  Projects side: the `tap`
in `getAllProjects` routes the broadcast subject through the fallback, but
the observable handed to the caller still emits the empty sequence, even when
the subject previously held content. -/
theorem claim3_counterexample :
    BlogService.getPosts emptyBlogCache 5 (.ok []) =
      .ok { state := { payload := some (.records []), timestamp := some 5 }
          , emitted := [], remoteCalled := true } ∧
    (ProjectsService.getAllProjects
        { cache := {}, subjectProjects := ProjectsService.fallbackProjects }
        5 (.ok [])).emitted = [] := by
  exact ⟨rfl, rfl⟩

/-- Claim C3 amended: on a successful-but-empty remote payload,
`ProjectsService.getAllProjects` does route the broadcast subject through the
fallback procedure and does not write the empty payload to the cache (the
cache is touched at most by stale-entry deletion), but the returned
observable still emits the empty sequence; `BlogService.getPosts` applies no
empty-payload check whatsoever: when the first cache read reports no entry,
the empty payload is written to the cache store and emitted. -/
theorem claim3_amended (s : ProjectsService.ServiceState)
    (b b1 : BlogService.BlogCache) (now : Nat) :
    ((ProjectsService.getAllProjects s now (.ok [])).state =
      ProjectsService.useFallbackData s now) ∧
    ((ProjectsService.useFallbackData s now).cache.payload = s.cache.payload ∨
      (ProjectsService.useFallbackData s now).cache.payload = none) ∧
    ((ProjectsService.getAllProjects s now (.ok [])).emitted = []) ∧
    (BlogService.getCachedPosts b now = .ok (b1, none) →
      b.quotaExceeded = false →
      BlogService.getPosts b now (.ok []) =
        .ok { state := { payload := some (.records []), timestamp := some now
                       , quotaExceeded := false }
            , emitted := [], remoteCalled := true }) := by
  refine ⟨by simp [ProjectsService.getAllProjects], ?_,
    by simp [ProjectsService.getAllProjects], fun h hq => ?_⟩
  · rw [useFallbackData_cache]
    obtain ⟨cp, ct, cq⟩ := s.cache
    cases cp with
    | none => left; rfl
    | some stored =>
      cases ct with
      | none => left; rfl
      | some ts =>
        by_cases hfresh : now - ts < ProjectsService.CACHE_DURATION
        · cases stored with
          | corrupt => left; simp [ProjectsService.getCachedProjects, hfresh]
          | records ps => left; simp [ProjectsService.getCachedProjects, hfresh]
        · right
          simp [ProjectsService.getCachedProjects, hfresh, ProjectsService.clearCache,
            CacheState.removeBoth]
  · have hq1 : b1.quotaExceeded = false := (blog_getCachedPosts_quota b b1 now none h).trans hq
    have hcache : BlogService.cachePosts b1 [] now =
        .ok { payload := some (.records []), timestamp := some now
            , quotaExceeded := false } := by
      obtain ⟨p1, t1, q1⟩ := b1
      cases hq1
      simp [BlogService.cachePosts, CacheState.setPayload, CacheState.setTimestamp,
        Bind.bind, Except.bind]
    simp [BlogService.getPosts, h, hcache, Bind.bind, Except.bind]

/-- Concrete instantiation of the amended C3 statement at an empty starting
cache. -/
theorem claim3_witness :
    BlogService.getPosts emptyBlogCache 5 (.ok []) =
      .ok { state := { payload := some (.records []), timestamp := some 5
                     , quotaExceeded := false }
          , emitted := [], remoteCalled := true } := by
  exact (claim3_amended { cache := {} } emptyBlogCache emptyBlogCache 5).2.2.2 rfl rfl

/-! Claim C4: are cache store errors absorbed at the boundary? -/

/-- Claim C4 as stated is false on the code: the blog cache store is not
error-absorbing.  A corrupt stored value under a fresh timestamp makes
`BlogService.getCachedPosts` throw (the `JSON.parse` is not wrapped), and a
storage-quota failure makes `BlogService.cachePosts` throw. -/
theorem claim4_counterexample :
    BlogService.getCachedPosts corruptFreshBlogCache 1000 = .error .parseError ∧
    BlogService.cachePosts { quotaExceeded := true } [demoPost] 0 =
      .error .quotaExceeded := by
  exact ⟨rfl, rfl⟩

/-- Claim C4 amended: the projects cache store absorbs serialization, quota
and corruption errors (a corrupt payload reads as no cache, a quota failure
leaves the cache unchanged, nothing propagates — the operations are total),
but the blog cache store propagates them: `cachePosts` raises the quota
error, and `getCachedPosts` raises the parse error on a fresh corrupt
entry. -/
theorem claim4_amended (c : ProjectsService.ProjectsCache) (b : BlogService.BlogCache)
    (ps : List Project) (qs : List BlogPost) (now t : Nat) :
    (c.payload = some .corrupt → (ProjectsService.getCachedProjects c now).2 = none) ∧
    (c.quotaExceeded = true → ProjectsService.cacheProjects c ps now = c) ∧
    (b.quotaExceeded = true → BlogService.cachePosts b qs now = .error .quotaExceeded) ∧
    (b.payload = some .corrupt → b.timestamp = some t →
      ¬ now - t > BlogService.CACHE_DURATION →
      BlogService.getCachedPosts b now = .error .parseError) := by
  refine ⟨fun h1 => ?_, fun h1 => ?_, fun h1 => ?_, fun h1 h2 h3 => ?_⟩
  · cases ht : c.timestamp with
    | none => simp [ProjectsService.getCachedProjects, h1, ht]
    | some ts =>
      by_cases hfresh : now - ts < ProjectsService.CACHE_DURATION <;>
        simp [ProjectsService.getCachedProjects, h1, ht, hfresh]
  · simp [ProjectsService.cacheProjects, h1]
  · simp [BlogService.cachePosts, CacheState.setPayload, h1, Bind.bind, Except.bind]
  · simp [BlogService.getCachedPosts, h1, h2, h3, parseStored]

/-- Concrete instantiation of the amended C4 statement. -/
theorem claim4_witness :
    (ProjectsService.getCachedProjects
      { payload := some .corrupt, timestamp := some 0 } 5).2 = none ∧
    BlogService.getCachedPosts corruptFreshBlogCache 1000 = .error .parseError := by
  constructor
  · exact (claim4_amended { payload := some .corrupt, timestamp := some 0 }
      {} [] [] 5 0).1 rfl
  · exact (claim4_amended {} corruptFreshBlogCache [] [] 1000 1000).2.2.2
      rfl rfl (by decide)

/-! Claim C5: remote failure with no usable cache entry. -/

/-- Claim C5 as stated is false on the code: when the blog cache holds a
present-but-corrupt (unparseable) entry under a fresh timestamp — hence no
usable entry — and the remote fetch fails, the load path surfaces the parse
exception to the caller instead of emitting the static fallback set. -/
theorem claim5_counterexample :
    BlogService.getPosts corruptFreshBlogCache 1000 (.error ()) =
      .error .parseError := by
  rfl

/-- Claim C5 amended: when the remote fetch fails and the cache read reports
no entry, both services emit exactly the static fallback set and no error
reaches the caller; for the projects service this covers every no-usable-
entry situation (absent, stale or corrupt — its read is total), while for the
blog service a fresh corrupt entry escapes this guarantee by throwing (the
counterexample), the absent and stale cases being covered here. -/
theorem claim5_amended (s : ProjectsService.ServiceState)
    (b b1 : BlogService.BlogCache) (now : Nat) :
    ((ProjectsService.getCachedProjects s.cache now).2 = none →
      (ProjectsService.getAllProjects s now (.error ())).emitted =
        ProjectsService.fallbackProjects) ∧
    (BlogService.getCachedPosts b now = .ok (b1, none) →
      BlogService.getPosts b now (.error ()) =
        .ok { state := b1, emitted := fallbackBlogPosts, remoteCalled := true }) := by
  constructor
  · intro h
    have h2 : ProjectsService.getCachedProjects
        (ProjectsService.useFallbackData s now).cache now =
        ProjectsService.getCachedProjects s.cache now := by
      rw [useFallbackData_cache, projects_getCachedProjects_stable]
    cases hc : ProjectsService.getCachedProjects s.cache now with
    | mk c1 r1 =>
      rw [hc] at h h2
      have hr : r1 = none := h
      subst hr
      simp [ProjectsService.getAllProjects, h2]
  · intro h
    have h2 := blog_getCachedPosts_stable b b1 now none h
    simp [BlogService.getPosts, h, h2, Bind.bind, Except.bind]

/-- Concrete instantiation of the amended C5 statement: failing remote over
an empty cache yields exactly the static sets. -/
theorem claim5_witness :
    (ProjectsService.getAllProjects { cache := {} } 5 (.error ())).emitted =
      ProjectsService.fallbackProjects ∧
    BlogService.getPosts emptyBlogCache 5 (.error ()) =
      .ok { state := emptyBlogCache, emitted := fallbackBlogPosts
          , remoteCalled := true } := by
  have h := claim5_amended { cache := {} } emptyBlogCache emptyBlogCache 5
  exact ⟨h.1 rfl, h.2 rfl⟩

/-! Claim C6: forceRefresh clears first and falls back to the static set. -/

/-- A helper for C6: `getAllProjects` depends on the service state only
through its cache slice (every path overwrites the broadcast subject). -/
theorem getAllProjects_cache_only (x y : ProjectsService.ServiceState) (now : Nat)
    (remote : Except Unit (List Project)) (h : x.cache = y.cache) :
    ProjectsService.getAllProjects x now remote =
      ProjectsService.getAllProjects y now remote := by
  have hf : ProjectsService.useFallbackData x now =
      ProjectsService.useFallbackData y now := by
    unfold ProjectsService.useFallbackData
    rw [h]
  cases remote with
  | ok projects =>
    by_cases hl : projects.length > 0 <;>
      simp [ProjectsService.getAllProjects, hl, h, hf]
  | error e => simp [ProjectsService.getAllProjects, hf]

/-- Claim C6 confirmed: `forceRefresh` removes both cache keys before the
remote attempt — its outcome is insensitive to whatever entry (however
fresh) was present — and when that remote fetch fails the fallback resolves
to the static fallback set, not to the just-cleared entry. -/
theorem claim6_confirmed (s s2 : ProjectsService.ServiceState)
    (b b2 : BlogService.BlogCache) (c : ProjectsService.ProjectsCache) (now : Nat)
    (remote : Except Unit (List Project)) (bremote : Except Unit (List BlogPost)) :
    ((ProjectsService.clearCache c).payload = none ∧
      (ProjectsService.clearCache c).timestamp = none ∧
      (BlogService.clearCache b).payload = none ∧
      (BlogService.clearCache b).timestamp = none) ∧
    (ProjectsService.forceRefresh s now remote =
      ProjectsService.getAllProjects
        { s with cache := ProjectsService.clearCache s.cache } now remote) ∧
    (s.cache.quotaExceeded = s2.cache.quotaExceeded →
      ProjectsService.forceRefresh s now remote =
        ProjectsService.forceRefresh s2 now remote) ∧
    ((ProjectsService.forceRefresh s now (.error ())).emitted =
      ProjectsService.fallbackProjects) ∧
    (b.quotaExceeded = b2.quotaExceeded →
      (BlogService.forceRefresh b now bremote).emitted =
        (BlogService.forceRefresh b2 now bremote).emitted) ∧
    (BlogService.forceRefresh b now (.error ()) =
      { state := BlogService.clearCache b, emitted := fallbackBlogPosts
      , remoteCalled := true }) := by
  refine ⟨⟨rfl, rfl, rfl, rfl⟩, rfl, fun hq => ?_, ?_, fun hq => ?_, rfl⟩
  · unfold ProjectsService.forceRefresh
    apply getAllProjects_cache_only
    simp [ProjectsService.clearCache, CacheState.removeBoth, hq]
  · rfl
  · cases bremote with
    | error e => rfl
    | ok posts =>
      cases hb : b.quotaExceeded with
      | false =>
        have hb2 : b2.quotaExceeded = false := hq.symm.trans hb
        simp [BlogService.forceRefresh, BlogService.cachePosts, BlogService.clearCache,
          CacheState.removeBoth, CacheState.setPayload, CacheState.setTimestamp,
          hb, hb2, Bind.bind, Except.bind]
      | true =>
        have hb2 : b2.quotaExceeded = true := hq.symm.trans hb
        simp [BlogService.forceRefresh, BlogService.cachePosts, BlogService.clearCache,
          CacheState.removeBoth, CacheState.setPayload, CacheState.setTimestamp,
          hb, hb2, Bind.bind, Except.bind]

/-- Concrete instantiation of C6: a fresh entry does not save a failing
forceRefresh — the static fallback set is emitted, not the cleared entry. -/
theorem claim6_witness :
    (ProjectsService.forceRefresh
        { cache := { payload := some (.records ProjectsService.fallbackProjects)
                   , timestamp := some 4 } } 5 (.error ())).emitted =
      ProjectsService.fallbackProjects ∧
    BlogService.forceRefresh freshBlogCache 1000 (.error ()) =
      { state := BlogService.clearCache freshBlogCache
      , emitted := fallbackBlogPosts, remoteCalled := true } ∧
    (BlogService.forceRefresh freshBlogCache 1000 (.ok [demoPost])).emitted =
      (BlogService.forceRefresh emptyBlogCache 1000 (.ok [demoPost])).emitted := by
  have h1 := claim6_confirmed
    { cache := { payload := some (.records ProjectsService.fallbackProjects)
               , timestamp := some 4 } }
    { cache := {} } freshBlogCache emptyBlogCache {} 5 (.error ()) (.error ())
  have h2 := claim6_confirmed { cache := {} } { cache := {} }
    freshBlogCache emptyBlogCache {} 1000 (.error ()) (.ok [demoPost])
  exact ⟨h1.2.2.2.1, h2.2.2.2.2.2, h2.2.2.2.2.1 rfl⟩

/-! Claim C7: idempotence of two successive loads. -/

/-- Serializing then reviving a record equals reviving it directly: the
JSON round trip through the cache loses nothing the revival would keep. -/
theorem map_revive_serialize (l : List BlogPost) :
    (l.map BlogService.serializePost).map BlogService.reviveCachedPost =
      l.map BlogService.reviveCachedPost := by
  induction l with
  | nil => rfl
  | cons p t ih => simp [reviveCachedPost_serialize, ih]

/-- Claim C7 as stated is false on the code: over an empty cache, the first
`getPosts` call fetches and emits the server records with their serialized
string dates, while the immediately following call serves the now-fresh
cache and emits the same records with `publisheddate` converted to a `Date`
object — the two emitted payloads are not identical. -/
theorem claim7_counterexample :
    BlogService.getPosts emptyBlogCache 0 (.ok [demoPost]) =
      .ok { state := demoCachedState, emitted := [demoPost], remoteCalled := true } ∧
    BlogService.getPosts demoCachedState 0 (.ok [demoPost]) =
      .ok { state := demoCachedState
          , emitted := [{ demoPost with publisheddate := .dateObj "2025-01-01" }]
          , remoteCalled := false } ∧
    [{ demoPost with publisheddate := .dateObj "2025-01-01" }] ≠ [demoPost] := by
  refine ⟨rfl, rfl, by decide⟩

/-- Claim C7 amended: two successive load calls (same instant, unchanged
remote outcome, no intervening clearCache) emit payloads identical up to
date normalization.  For the projects service the two emissions are strictly
identical; for the blog service the second emission equals the first with
`publisheddate` normalized by the cache revival mapping — a mapping that
changes no field except `publisheddate`. -/
theorem claim7_amended (s : ProjectsService.ServiceState) (b : BlogService.BlogCache)
    (now : Nat) (remote : Except Unit (List Project))
    (bremote : Except Unit (List BlogPost)) (r1 : BlogService.BlogLoadResult) :
    ((ProjectsService.getAllProjects
        (ProjectsService.getAllProjects s now remote).state now remote).emitted =
      (ProjectsService.getAllProjects s now remote).emitted) ∧
    (BlogService.getPosts b now bremote = .ok r1 →
      (BlogService.getPosts r1.state now bremote).map (fun r => r.emitted) =
        .ok (r1.emitted.map BlogService.reviveCachedPost)) ∧
    (∀ p : BlogPost,
      { BlogService.reviveCachedPost p with publisheddate := p.publisheddate } = p) := by
  refine ⟨?_, fun h => ?_, fun p => rfl⟩
  · cases remote with
    | ok projects =>
      by_cases hl : projects.length > 0 <;> simp [ProjectsService.getAllProjects, hl]
    | error e =>
      cases hc : ProjectsService.getCachedProjects s.cache now with
      | mk c1 r1p =>
        have hs2 : ProjectsService.getCachedProjects
            (ProjectsService.useFallbackData s now).cache now = (c1, r1p) := by
          rw [useFallbackData_cache, projects_getCachedProjects_stable, hc]
        have hstable : ProjectsService.getCachedProjects c1 now = (c1, r1p) := by
          have h2 := projects_getCachedProjects_stable s.cache now
          rw [hc] at h2
          exact h2
        simp [ProjectsService.getAllProjects, hs2, useFallbackData_cache, hc, hstable]
  · cases hcache : BlogService.getCachedPosts b now with
    | error e => simp [BlogService.getPosts, hcache, Bind.bind, Except.bind] at h
    | ok pr =>
      obtain ⟨b1, cached?⟩ := pr
      cases cached? with
      | some cps =>
        simp [BlogService.getPosts, hcache, Bind.bind, Except.bind] at h
        subst h
        have hstable := blog_getCachedPosts_stable b b1 now (some cps) hcache
        have hrev := blog_getCachedPosts_revived b b1 now cps hcache
        simp [BlogService.getPosts, hstable, Bind.bind, Except.bind, Except.map, hrev]
      | none =>
        have hstable := blog_getCachedPosts_stable b b1 now none hcache
        cases bremote with
        | ok posts =>
          cases hcp : BlogService.cachePosts b1 posts now with
          | ok s2 =>
            cases hq : b1.quotaExceeded with
            | true =>
              simp [BlogService.cachePosts, CacheState.setPayload, hq,
                Bind.bind, Except.bind] at hcp
            | false =>
              have hs2 : s2 = { payload := some (.records (posts.map BlogService.serializePost))
                              , timestamp := some now, quotaExceeded := false } := by
                obtain ⟨p1, t1, q1⟩ := b1
                cases hq
                simp [BlogService.cachePosts, CacheState.setPayload,
                  CacheState.setTimestamp, Bind.bind, Except.bind] at hcp
                exact hcp.symm
              subst hs2
              simp [BlogService.getPosts, hcache, hcp, Bind.bind, Except.bind] at h
              subst h
              simp [BlogService.getPosts, BlogService.getCachedPosts,
                BlogService.CACHE_DURATION, Nat.sub_self, parseStored,
                map_revive_serialize, Bind.bind, Except.bind, Except.map]
              exact fun a _ => reviveCachedPost_serialize a
          | error e =>
            simp [BlogService.getPosts, hcache, hcp, hstable, Bind.bind, Except.bind] at h
            subst h
            simp [BlogService.getPosts, hstable, hcp, fallbackBlogPosts_revive,
              Bind.bind, Except.bind, Except.map]
        | error e =>
          simp [BlogService.getPosts, hcache, hstable, Bind.bind, Except.bind] at h
          subst h
          simp [BlogService.getPosts, hstable, fallbackBlogPosts_revive,
            Bind.bind, Except.bind, Except.map]

/-- Concrete instantiation of the amended C7 statement: the first call over
an empty cache caches and emits the fetched post; the second call emits its
revived form. -/
theorem claim7_witness :
    (BlogService.getPosts demoCachedState 0 (.ok [demoPost])).map
        (fun r => r.emitted) =
      .ok ([demoPost].map BlogService.reviveCachedPost) := by
  exact (claim7_amended { cache := {} } emptyBlogCache 0 (.error ()) (.ok [demoPost])
    { state := demoCachedState, emitted := [demoPost], remoteCalled := true }).2.1 rfl

/-! Claim C8: the work-view filter composition. -/

namespace WorkComponent

/-- The conjunction the claim describes: case-insensitive substring match of
the search term against title, description or any technology token (vacuous
when the term is empty), exact category match unless the control is unset or
`all`, exact status match unless unset or `all`, and `featured` when the
checkbox is set. -/
def passesAllFilters (f : FilterControls) (p : Project) : Bool :=
  (jsToLower f.search == "" || matchesSearch (jsToLower f.search) p) &&
  (f.category == "" || f.category == "all" || p.category == f.category) &&
  (f.status == "" || f.status == "all" || p.status == f.status) &&
  (!f.featured || p.featured)

end WorkComponent

/-- A conditional filter stage expressed as one guarded filter. -/
theorem filter_stage {α : Type} (l : List α) (c : Bool) (p : α → Bool) :
    (if c = true then l.filter p else l) = l.filter (fun a => !c || p a) := by
  cases c with
  | true => simp
  | false => simp

/-- Two successive filters merge into the conjunction, in application
order. -/
theorem filter_filter_left {α : Type} (l : List α) (p q : α → Bool) :
    (l.filter p).filter q = l.filter (fun a => p a && q a) := by
  induction l with
  | nil => rfl
  | cons h t ih => by_cases hp : p h <;> by_cases hq : q h <;> simp [hp, hq, ih]

/-- The filter chain of `applyFilters` computes exactly the records passing
the four-way conjunction. -/
theorem applyFilters_eq (ps : List Project) (f : WorkComponent.FilterControls) :
    WorkComponent.applyFilters ps f =
      ps.filter (WorkComponent.passesAllFilters f) := by
  simp only [WorkComponent.applyFilters]
  rw [filter_stage, filter_stage, filter_stage, filter_stage,
    filter_filter_left, filter_filter_left, filter_filter_left]
  refine List.filter_congr (fun a _ => ?_)
  simp only [WorkComponent.passesAllFilters, bne]
  generalize WorkComponent.matchesSearch (jsToLower f.search) a = m1
  generalize (jsToLower f.search == "") = b1
  generalize (f.category == "") = b2
  generalize (f.category == "all") = b3
  generalize (a.category == f.category) = m2
  generalize (f.status == "") = b4
  generalize (f.status == "all") = b5
  generalize (a.status == f.status) = m3
  generalize f.featured = b6
  generalize a.featured = m4
  revert b1 b2 b3 b4 b5 b6 m1 m2 m3 m4
  decide

/-- The first record of the filter-composition test of the spec. -/
def alphaRecord : Project :=
  { title := "Alpha", category := "A", status := "completed", featured := true }

/-- The second record of the filter-composition test of the spec. -/
def betaRecord : Project :=
  { title := "Beta", category := "B", status := "planned", featured := false }

/-- Claim C8 confirmed: the filtered view equals the records satisfying the
logical AND of the four filter conditions, and on the two sample records a
search for `alpha` selects only the first, category `B` only the second, and
the featured checkbox alone only the first. -/
theorem claim8_confirmed :
    (∀ (ps : List Project) (f : WorkComponent.FilterControls),
      WorkComponent.applyFilters ps f =
        ps.filter (WorkComponent.passesAllFilters f)) ∧
    WorkComponent.applyFilters [alphaRecord, betaRecord] { search := "alpha" } =
      [alphaRecord] ∧
    WorkComponent.applyFilters [alphaRecord, betaRecord] { category := "B" } =
      [betaRecord] ∧
    WorkComponent.applyFilters [alphaRecord, betaRecord] { featured := true } =
      [alphaRecord] := by
  refine ⟨applyFilters_eq, ?_, ?_, ?_⟩ <;> decide

/-! Claim C9: coercion of missing list-typed fields. -/

/-- A blog post as `JSON.parse` hands it back from the cache: the stored
object need not carry every field of the `BlogPost` interface, and the
list-typed `tags` field — the one the claim concerns — is `none` when absent
from the stored JSON. -/
structure ParsedCachedPost where
  id : String := ""
  slug : String := ""
  title : String := ""
  excerpt : String := ""
  content : String := ""
  author : String := ""
  publisheddate : JsDateVal := .str ""
  tags : Option (List String) := none
  readtime : Nat := 0
  imageurl : Option String := none
deriving DecidableEq, Repr

/-- The record mapping of `getCachedPosts` (blog.service.ts lines 187-190)
applied to such a parsed record: the spread `{...post}` copies every stored
field as-is — present or absent — and only `publisheddate` is replaced by
`new Date(post.publisheddate)`. -/
def reviveParsedCachedPost (post : ParsedCachedPost) : ParsedCachedPost :=
  { post with publisheddate := jsNewDate post.publisheddate }

/-- A cached record whose stored JSON has no `tags` field. -/
def missingTagsPost : ParsedCachedPost :=
  { id := "9", slug := "no-tags", title := "No tags", author := "A"
  , publisheddate := .str "2025-01-01", readtime := 1 }

/-- Claim C9 is false on the code: a record whose list-typed `tags` field is
absent from the stored JSON leaves the cache-read mapping with `tags` still
absent — it is not coerced to the empty sequence. -/
theorem claim9_counterexample :
    (reviveParsedCachedPost missingTagsPost).tags = none ∧
    (reviveParsedCachedPost missingTagsPost).tags ≠ some [] := by
  exact ⟨rfl, by decide⟩

/-- Claim C9 amended: no coercion of missing list-typed fields happens
anywhere on the cache-read path — the mapping of `getCachedPosts` preserves
every field (the `tags` field in particular, absent or not) and rewrites
only `publisheddate`; the remote path applies no mapping at all. -/
theorem claim9_amended (post : ParsedCachedPost) :
    (reviveParsedCachedPost post).tags = post.tags ∧
    { reviveParsedCachedPost post with publisheddate := post.publisheddate } = post := by
  exact ⟨rfl, rfl⟩

/-! Claim C10: getPostBySlug returns an absent value, never an error, on a
missing slug, and the first match otherwise. -/

/-- On a list split around its first slug match, `find?` returns exactly that
match. -/
theorem find?_first_match (slug : String) (p : BlogPost) (l2 : List BlogPost)
    (hp : p.slug = slug) :
    ∀ l1 : List BlogPost, (∀ q ∈ l1, q.slug ≠ slug) →
      (l1 ++ p :: l2).find? (fun q => q.slug == slug) = some p := by
  intro l1
  induction l1 with
  | nil =>
    intro hnil
    simp [List.find?_cons, hp]
  | cons q t ih =>
    intro hl1
    have hq : (q.slug == slug) = false := by
      simp [hl1 q (List.mem_cons_self q t)]
    simp only [List.cons_append, List.find?_cons, hq]
    exact ih fun x hx => hl1 x (List.mem_cons_of_mem q hx)

/-- Claim C10 confirmed: whenever `getPosts` resolves to a record list,
`getPostBySlug` returns exactly the first post of that list carrying the
requested slug, and an absent value (`null`) — not an error — when no post
carries it. -/
theorem claim10_confirmed (b : BlogService.BlogCache) (now : Nat)
    (remote : Except Unit (List BlogPost)) (slug : String)
    (r : BlogService.BlogLoadResult)
    (h : BlogService.getPosts b now remote = .ok r) :
    (BlogService.getPostBySlug b now remote slug =
      .ok (r.state, r.emitted.find? (fun p => p.slug == slug))) ∧
    ((∀ p ∈ r.emitted, p.slug ≠ slug) →
      BlogService.getPostBySlug b now remote slug = .ok (r.state, none)) ∧
    (∀ (l1 l2 : List BlogPost) (p : BlogPost), r.emitted = l1 ++ p :: l2 →
      p.slug = slug → (∀ q ∈ l1, q.slug ≠ slug) →
      BlogService.getPostBySlug b now remote slug = .ok (r.state, some p)) := by
  have hbase : BlogService.getPostBySlug b now remote slug =
      .ok (r.state, r.emitted.find? (fun p => p.slug == slug)) := by
    simp [BlogService.getPostBySlug, h, Bind.bind, Except.bind]
  refine ⟨hbase, fun hnone => ?_, fun l1 l2 p hsplit hp hl1 => ?_⟩
  · rw [hbase]
    have : r.emitted.find? (fun p => p.slug == slug) = none := by
      rw [List.find?_eq_none]
      intro x hx
      simp [hnone x hx]
    rw [this]
  · rw [hbase, hsplit]
    rw [find?_first_match slug p l2 hp l1 hl1]

/-- Concrete instantiation of C10: the demo post is found under its slug, an
unknown slug yields the absent value. -/
theorem claim10_witness :
    BlogService.getPostBySlug emptyBlogCache 0 (.ok [demoPost]) "hello" =
      .ok (demoCachedState, some demoPost) ∧
    BlogService.getPostBySlug emptyBlogCache 0 (.ok [demoPost]) "nope" =
      .ok (demoCachedState, none) := by
  constructor
  · exact (claim10_confirmed emptyBlogCache 0 (.ok [demoPost]) "hello"
      { state := demoCachedState, emitted := [demoPost], remoteCalled := true }
      rfl).2.2 [] [] demoPost rfl rfl (by simp)
  · exact (claim10_confirmed emptyBlogCache 0 (.ok [demoPost]) "nope"
      { state := demoCachedState, emitted := [demoPost], remoteCalled := true }
      rfl).2.1 (by decide)

end Portfolio
